import Mathlib

/-!
Shallow embedding of the lpot/ilit core: the quantization mapping resolver and
config-driven reconstructor (`src/lpot/utils/pytorch.py`, function `load`) and
the metric registry and built-in metrics (`src/ilit/metric/metric.py`).
Versions and approaches are Python strings compared lexicographically, exactly
as the source compares them.
-/

namespace Lpot

/-- Python's `<` on strings: lexicographic comparison of code points. -/
def charListLt : List Char → List Char → Bool
  | [], [] => false
  | [], _ :: _ => true
  | _ :: _, [] => false
  | a :: as, b :: bs =>
      if a < b then true else if b < a then false else charListLt as bs

/-- `a < b` on Python strings, as used by `version < '1.7'` in `load`. -/
def pyLt (a b : String) : Bool := charListLt a.data b.data

/-- Tags for the module-substitution tables that the version brackets in
`load` (lines 57-76) select from `torch.quantization`. -/
inductive QMapping where
  | defaultModuleMapping
  | staticQuantModuleMappings
  | defaultStaticQuantModuleMappings
  | defaultDynamicModuleMapping
  | dynamicQuantModuleMappings
  | defaultDynamicQuantModuleMappings
  deriving DecidableEq, Repr

/-- Tags for the eligible-module whitelists that the version brackets in
`load` (lines 78-92) select from `torch.quantization`. -/
inductive WhiteList where
  | defaultDynamicModuleMapping
  | defaultQconfigPropagateWhiteList
  | dynamicQuantModuleMappings
  | qconfigPropagationList
  | defaultDynamicQuantModuleMappings
  | defaultQconfigPropagationList
  deriving DecidableEq, Repr

/-- The dynamic-approach sentinel string the source compares against. -/
def dynamicApproach : String := "post_training_dynamic_quant"

/-- Module-substitution table selection, `load` lines 58-76: branch on the
approach, then on the version bracket (`< '1.7'`, `< '1.8'`, else). -/
def resolveQMapping (version approach : String) : QMapping :=
  if approach ≠ dynamicApproach then
    if pyLt version "1.7" then QMapping.defaultModuleMapping
    else if pyLt version "1.8" then QMapping.staticQuantModuleMappings
    else QMapping.defaultStaticQuantModuleMappings
  else
    if pyLt version "1.7" then QMapping.defaultDynamicModuleMapping
    else if pyLt version "1.8" then QMapping.dynamicQuantModuleMappings
    else QMapping.defaultDynamicQuantModuleMappings

/-- Whitelist selection, `load` lines 78-92: branch on the version bracket,
then on the approach. -/
def resolveWhiteList (version approach : String) : WhiteList :=
  if pyLt version "1.7" then
    if approach = dynamicApproach then WhiteList.defaultDynamicModuleMapping
    else WhiteList.defaultQconfigPropagateWhiteList
  else if pyLt version "1.8" then
    if approach = dynamicApproach then WhiteList.dynamicQuantModuleMappings
    else WhiteList.qconfigPropagationList
  else
    if approach = dynamicApproach then WhiteList.defaultDynamicQuantModuleMappings
    else WhiteList.defaultQconfigPropagationList

/-- The (module-substitution table, eligible-module whitelist) pair the
resolver part of `load` computes for a version and approach. -/
def resolve (version approach : String) : QMapping × WhiteList :=
  (resolveQMapping version approach, resolveWhiteList version approach)

/-- The bracket a version falls in: 0 for `< '1.7'`, 1 for `< '1.8'`, else 2. -/
def versionBracket (version : String) : Nat :=
  if pyLt version "1.7" then 0 else if pyLt version "1.8" then 1 else 2

/-- Exceptions that can be raised by the torch library calls `load` makes.
`weightMismatch` is `load_state_dict` failing on a key that does not match
the model's parameter structure; the others are tracing/conversion
(backend-capability) failures. -/
inductive LoadErr where
  | cfgFailure
  | traceFailure
  | prepareFailure
  | convertFailure
  | weightMismatch (key : String)
  deriving DecidableEq, Repr

/-- A torch model object: its `training` flag (toggled in place by
`model.eval()`) and its module/graph structure. `copy.deepcopy` is value
copying in this embedding, so only operations applied to the original
object itself can affect it. -/
structure TModel (μ : Type) where
  training : Bool
  modules : μ
  deriving DecidableEq, Repr

/-- The external torch/adaptor operations `load` calls, on module
structures `μ`, weight containers `ω`, op-config mappings `γ` and fx-config
mappings `φ`. Fallible calls return `Except LoadErr`. -/
structure TorchBackend (μ ω γ φ : Type) where
  cfgsToFxCfgs : γ → String → Except LoadErr φ
  symbolicTrace : μ → Except LoadErr μ
  prepareFx : μ → φ → Except LoadErr μ
  convertFx : μ → Except LoadErr μ
  propagateQconfig : μ → γ → WhiteList → String → μ
  anyQconfig : μ → Bool
  addObserver : μ → μ
  convert : μ → QMapping → μ
  loadStateDict : μ → ω → Except LoadErr μ

/-- The body of the `try` block in `load` (lines 99-111), applied to the
deep copy `m` of the evaluated model: convert configs to fx format,
symbolically trace when version < '1.8', prepare, convert, then load the
calibrated weights into the graph module. The first exception aborts the
whole block. -/
def fxPath {μ ω γ φ : Type} (B : TorchBackend μ ω γ φ)
    (version approach : String) (opCfgs : γ) (weights : ω) (m : μ) :
    Except LoadErr μ := do
  let fxCfgs ← B.cfgsToFxCfgs opCfgs approach
  let q ← if pyLt version "1.8" then B.symbolicTrace m else pure m
  let q ← B.prepareFx q fxCfgs
  let q ← B.convertFx q
  B.loadStateDict q weights

/-- The eager path of `load` (lines 116-128), applied to a fresh deep copy
`m`: propagate qconfigs over the whitelist, warn when no submodule got a
qconfig, add observers unless the approach is dynamic, convert with the
resolved mapping, then load the calibrated weights. Returns the result and
the no-qconfig warning flag. -/
def eagerPath {μ ω γ φ : Type} (B : TorchBackend μ ω γ φ)
    (approach : String) (qmap : QMapping) (wl : WhiteList) (opCfgs : γ)
    (weights : ω) (m : μ) : Except LoadErr μ × Bool :=
  let q := B.propagateQconfig m opCfgs wl approach
  let warned := !(B.anyQconfig q)
  let q2 := if approach ≠ dynamicApproach then B.addObserver q else q
  let q3 := B.convert q2 qmap
  (B.loadStateDict q3 weights, warned)

/-- What `load` produces: the returned (or raised) quantized model, the
state of the caller's original model object after the call, whether the
fx-path failure was logged ("The model can't be convert to fx graph!"),
and whether the no-qconfig sanity warning fired. -/
structure LoadOutcome (μ : Type) where
  result : Except LoadErr μ
  originalAfter : TModel μ
  fxFailureLogged : Bool
  warnedNoQconfig : Bool

/-- Control flow of `load` lines 99-128 on the copied module structure:
when version ≥ '1.7' the fx path is attempted inside `try`; ANY exception
from it is caught and logged and execution falls through to the eager path
(which re-copies from the original model). When version < '1.7' the `if`
inside `try` is not taken and the eager path runs directly. Returns
(result, fx-failure-logged, no-qconfig-warned). -/
def loadCore {μ ω γ φ : Type} (B : TorchBackend μ ω γ φ)
    (version approach : String) (opCfgs : γ) (weights : ω) (m : μ) :
    Except LoadErr μ × Bool × Bool :=
  let qmap := resolveQMapping version approach
  let wl := resolveWhiteList version approach
  if pyLt version "1.7" then
    let r := eagerPath B approach qmap wl opCfgs weights m
    (r.1, false, r.2)
  else
    match fxPath B version approach opCfgs weights m with
    | Except.ok q => (Except.ok q, false, false)
    | Except.error _ =>
        let r := eagerPath B approach qmap wl opCfgs weights m
        (r.1, true, r.2)

/-- `load` (lines 31-128) as observed by the caller. Both paths start with
`copy.deepcopy(model.eval())`: `model.eval()` flips the ORIGINAL model's
training flag to false in place and returns the same object, which is then
deep-copied; every later mutation happens on the copy, so the original
comes back with its module structure intact but `training = false`. -/
def load {μ ω γ φ : Type} (B : TorchBackend μ ω γ φ)
    (version approach : String) (opCfgs : γ) (weights : ω)
    (model : TModel μ) : LoadOutcome μ :=
  let core := loadCore B version approach opCfgs weights model.modules
  ⟨core.1, ⟨false, model.modules⟩, core.2.1, core.2.2⟩

/-- A concrete backend over `Nat` module tags used to evaluate `load` at
explicit inputs: the fx path produces tag 5, whose weight load fails with a
mismatched key, while the eager path produces tag 60, whose weight load
succeeds. -/
def testBackend : TorchBackend Nat Unit Unit Unit :=
  ⟨fun _ _ => Except.ok (),
   fun m => Except.ok (m + 1),
   fun m _ => Except.ok (m + 2),
   fun m => Except.ok (m + 3),
   fun m _ _ _ => m + 10,
   fun _ => true,
   fun m => m + 20,
   fun m _ => m + 30,
   fun m _ => if m = 5 then Except.error (LoadErr.weightMismatch "fc.weight")
              else Except.ok m⟩

end Lpot

namespace Ilit

/-- Insert into an ascending list, after any equal elements (the shift
condition of numpy's insertion sort is a strict `<`). -/
def insertAsc {α : Type} (lt : α → α → Bool) (x : α) : List α → List α
  | [] => [x]
  | y :: ys => if lt x y then x :: y :: ys else y :: insertAsc lt x ys

/-- Stable ascending sort, as numpy's sort behaves on the short rows the
metric handles (numpy runs insertion sort on small partitions; ties keep
their original order). -/
def stableSortAsc {α : Type} (lt : α → α → Bool) (l : List α) : List α :=
  l.foldl (fun acc x => insertAsc lt x acc) []

/-- numpy `argsort` of one row: the indices of the row sorted ascending by
value, ties broken toward the lower original index. -/
def argsortBy {α : Type} (lt : α → α → Bool) (row : List α) : List Nat :=
  (stableSortAsc (fun a b => lt a.2 b.2) row.enum).map Prod.fst

/-- `argsort` on a row of prediction scores. -/
def argsort (row : List ℚ) : List Nat := argsortBy (fun a b => a.blt b) row

/-- `argsort` on a row of integer (one-hot) labels. -/
def argsortInt (row : List Int) : List Nat :=
  argsortBy (fun a b => decide (a < b)) row

/-- Python's `xs[-k:]` slice: the last `k` elements, the whole list when
`k = 0` (because `-0` is `0`). -/
def pySliceLast {α : Type} (k : Nat) (l : List α) : List α :=
  if k = 0 then l else l.drop (l.length - k)

/-- The predictions argument of `update` after `np.array`: a flat
length-`class_num` row (N = 1) or an N×class_num matrix. -/
inductive PredsIn where
  | oneD (row : List ℚ)
  | twoD (rows : List (List ℚ))
  deriving DecidableEq, Repr

/-- The labels argument of `update` after the int special case and
`np.array`: a bare int, a length-N sparse vector, or an N×class_num
one-hot matrix. -/
inductive LabelsIn where
  | int (x : Int)
  | oneD (xs : List Int)
  | twoD (xss : List (List Int))
  deriving DecidableEq, Repr

/-- Errors the metric code raises. `shapeMismatch` is the
`assert label_N == N` in `_topk_shape_validate` (line 246). -/
inductive MetricErr where
  | shapeMismatch
  deriving DecidableEq, Repr

/-- `N` in `_topk_shape_validate`: 1 for a flat row, else the first axis. -/
def predsN : PredsIn → Nat
  | PredsIn.oneD _ => 1
  | PredsIn.twoD rows => rows.length

/-- The predictions reshaped to N×class_num. -/
def predsRows : PredsIn → List (List ℚ)
  | PredsIn.oneD row => [row]
  | PredsIn.twoD rows => rows

/-- `label_N` in `_topk_shape_validate`: the first axis of `np.array(labels)`
(1 for a bare int). -/
def labelsN : LabelsIn → Nat
  | LabelsIn.int _ => 1
  | LabelsIn.oneD xs => xs.length
  | LabelsIn.twoD xss => xss.length

/-- The labels reshaped to N×1 sparse indices: a bare int or a sparse
vector wraps each entry; a one-hot matrix (row width ≠ 1) is reduced by
`labels.argsort()[..., -1:]`, i.e. each row becomes the index where its
maximum sits (ties toward the higher index under the stable ascending
argsort). -/
def labelsNormalized : LabelsIn → List (List Int)
  | LabelsIn.int x => [[x]]
  | LabelsIn.oneD xs => xs.map (fun x => [x])
  | LabelsIn.twoD xss =>
      if xss.all (fun r => r.length = 1) then xss
      else xss.map (fun r => [(((argsortInt r).getLastD 0 : Nat) : Int)])

/-- `_topk_shape_validate` (lines 223-251): normalize predictions to
N×class_num and labels to N×1, failing when the label batch size differs
from the prediction batch size. -/
def topkShapeValidate (preds : PredsIn) (labels : LabelsIn) :
    Except MetricErr (List (List ℚ) × List (List Int)) :=
  if labelsN labels ≠ predsN preds then Except.error MetricErr.shapeMismatch
  else Except.ok (predsRows preds, labelsNormalized labels)

/-- The accumulator state of `MxnetTopK` (and `TensorflowTopK`): the
configured k and the running correct/sample counts. -/
structure TopKState where
  k : Nat
  num_correct : Nat
  num_sample : Nat
  deriving DecidableEq, Repr

/-- What `result()` produces: the value and whether the zero-sample
warning was logged. -/
structure ResultOut where
  warned : Bool
  value : ℚ
  deriving DecidableEq, Repr

namespace MxnetTopK

/-- `MxnetTopK.update` (lines 267-283): validate shapes, take each row's
top-k indices via `argsort()[..., -k:]`, count exact matches (k = 1, via
`accuracy_score` with `normalize=False`) or membership of the label among
the top-k indices (k > 1), then add the batch size to `num_sample`. -/
def update (s : TopKState) (preds : PredsIn) (labels : LabelsIn) :
    Except MetricErr TopKState :=
  match topkShapeValidate preds labels with
  | Except.error e => Except.error e
  | Except.ok (p2, l2) =>
      let top := p2.map (fun row => pySliceLast s.k (argsort row))
      let correct :=
        if s.k = 1 then
          (top.zip l2).countP (fun pl => pl.1.map Int.ofNat == pl.2)
        else
          (top.zip l2).countP
            (fun pl => pl.2.any (fun x => pl.1.any (fun i => Int.ofNat i == x)))
      Except.ok ⟨s.k, s.num_correct + correct, s.num_sample + l2.length⟩

/-- `MxnetTopK.reset` (lines 285-287): zero both counters. -/
def reset (s : TopKState) : TopKState := ⟨s.k, 0, 0⟩

/-- `MxnetTopK.result` (lines 289-294): 0 with a warning when no sample
was accumulated, else `num_correct / num_sample`. -/
def result (s : TopKState) : ResultOut :=
  if s.num_sample = 0 then ⟨true, 0⟩
  else ⟨false, (s.num_correct : ℚ) / (s.num_sample : ℚ)⟩

end MxnetTopK

/-- One image's ground truth as `update` reads it from `labels[0]`. -/
structure GroundTruth (β κ : Type) where
  boxes : List β
  classes : List κ
  deriving DecidableEq, Repr

/-- One image's detections as `update` reads its `detection` argument. -/
structure Detection (β κ : Type) where
  boxes : List β
  scores : List ℚ
  classes : List κ
  deriving DecidableEq, Repr

/-- The accumulator state of `TensorflowCOCOMAP`: seen image ids, the two
append-only record lists, and the next-annotation-id counter
(`annotation_id` in the source, initially 1). -/
structure CocoState (ι γ δ : Type) where
  image_ids : List ι
  ground_truth_list : List γ
  detection_list : List δ
  ann_id : Nat
  deriving DecidableEq, Repr

namespace CocoMAP

/-- `TensorflowCOCOMAP.update` (lines 353-376): a duplicate image id
returns immediately; otherwise append the id, extend both record lists
with the exported COCO records (`ExportSingleImageGroundtruthToCoco` /
`ExportSingleImageDetectionBoxesToCoco` live in `coco_tools`, outside this
core, and are taken as parameters), and advance the annotation counter by
the number of ground-truth boxes. -/
def update {ι γ δ β κ : Type} [DecidableEq ι]
    (exportGT : ι → Nat → GroundTruth β κ → List γ)
    (exportDet : ι → Detection β κ → List δ)
    (s : CocoState ι γ δ) (detection : Detection β κ)
    (labels : GroundTruth β κ × ι) : CocoState ι γ δ :=
  let image_id := labels.2
  let gt := labels.1
  if image_id ∈ s.image_ids then s
  else
    ⟨s.image_ids ++ [image_id],
     s.ground_truth_list ++ exportGT image_id s.ann_id gt,
     s.detection_list ++ exportDet image_id detection,
     s.ann_id + gt.boxes.length⟩

/-- `TensorflowCOCOMAP.reset` (lines 378-382): clear the three lists and
reset the annotation counter to 1. -/
def reset {ι γ δ : Type} (_ : CocoState ι γ δ) : CocoState ι γ δ :=
  ⟨[], [], [], 1⟩

/-- `TensorflowCOCOMAP.result` (lines 384-415): 0 with a warning when no
ground truth was accumulated, else the aggregate mAP computed by the
external COCO evaluator `ev` over the accumulated state. -/
def result {ι γ δ : Type} (ev : CocoState ι γ δ → ℚ) (s : CocoState ι γ δ) :
    ResultOut :=
  if s.ground_truth_list.isEmpty then ⟨true, 0⟩ else ⟨false, ev s⟩

end CocoMAP

/-- The three supported frameworks (metric.py lines 113-130). -/
inductive Framework where
  | tensorflow
  | mxnet
  | pytorch
  deriving DecidableEq, Repr

/-- The built-in metric dict of `PyTorchMetrics` (lines 36-86), values as
source tags. -/
def pytorchBuiltinMetrics : List (String × String) :=
  [("Accuracy", "ignite.metrics.Accuracy"),
   ("Loss", "ignite.metrics.Loss"),
   ("MeanAbsoluteError", "ignite.metrics.MeanAbsoluteError"),
   ("MeanPairwiseDistance", "ignite.metrics.MeanPairwiseDistance"),
   ("MeanSquaredError", "ignite.metrics.MeanSquaredError"),
   ("topk", "ignite.metrics.TopKCategoricalAccuracy"),
   ("Average", "ignite.metrics.Average"),
   ("GeometricAverage", "ignite.metrics.GeometricAverage"),
   ("ConfusionMatrix", "ignite.metrics.ConfusionMatrix"),
   ("IoU", "ignite.metrics.IoU"),
   ("mIoU", "ignite.metrics.mIoU"),
   ("DiceCoefficient", "ignite.metrics.DiceCoefficient"),
   ("MetricsLambda", "ignite.metrics.MetricsLambda"),
   ("EpochMetric", "ignite.metrics.EpochMetric"),
   ("Fbeta", "ignite.metrics.Fbeta"),
   ("Precision", "ignite.metrics.Precision"),
   ("Recall", "ignite.metrics.Recall"),
   ("RootMeanSquaredError", "ignite.metrics.RootMeanSquaredError"),
   ("RunningAverage", "ignite.metrics.RunningAverage"),
   ("VariableAccumulation", "ignite.metrics.VariableAccumulation"),
   ("Frequency", "ignite.metrics.Frequency")]

/-- The built-in metric dict of `MXNetMetrics` (lines 89-109). -/
def mxnetBuiltinMetrics : List (String × String) :=
  [("Accuracy", "mx.metric.Accuracy"),
   ("TopKAccuracy", "mx.metric.TopKAccuracy"),
   ("F1", "mx.metric.F1"),
   ("MCC", "mx.metric.MCC"),
   ("MAE", "mx.metric.MAE"),
   ("MSE", "mx.metric.MSE"),
   ("RMSE", "mx.metric.RMSE"),
   ("CrossEntropy", "mx.metric.CrossEntropy"),
   ("Perplexity", "mx.metric.Perplexity"),
   ("NegativeLogLikelihood", "mx.metric.NegativeLogLikelihood"),
   ("PearsonCorrelation", "mx.metric.PearsonCorrelation"),
   ("PCC", "mx.metric.PCC"),
   ("Loss", "mx.metric.Loss")]

/-- The built-in metric dict of `TensorflowMetrics` (lines 30-33): empty
before the registry update. -/
def tensorflowBuiltinMetrics : List (String × String) := []

/-- The per-framework user registries (`registry_metrics`). -/
structure Registries where
  tensorflow : List (String × String)
  mxnet : List (String × String)
  pytorch : List (String × String)
  deriving DecidableEq, Repr

def Registries.get (r : Registries) : Framework → List (String × String)
  | Framework.tensorflow => r.tensorflow
  | Framework.mxnet => r.mxnet
  | Framework.pytorch => r.pytorch

def Registries.set (r : Registries) :
    Framework → List (String × String) → Registries
  | Framework.tensorflow, l => ⟨l, r.mxnet, r.pytorch⟩
  | Framework.mxnet, l => ⟨r.tensorflow, l, r.pytorch⟩
  | Framework.pytorch, l => ⟨r.tensorflow, r.mxnet, l⟩

/-- `registry_metrics` after module import: the three class-decorator
applications register 'topk' for mxnet (line 253), 'topk' for tensorflow
(line 296) and 'COCOmAP' for tensorflow (line 338); nothing is registered
for pytorch. -/
def registryMetricsInit : Registries :=
  ⟨[("topk", "TensorflowTopK"), ("COCOmAP", "TensorflowCOCOMAP")],
   [("topk", "MxnetTopK")],
   []⟩

def builtinMetrics : Framework → List (String × String)
  | Framework.tensorflow => tensorflowBuiltinMetrics
  | Framework.mxnet => mxnetBuiltinMetrics
  | Framework.pytorch => pytorchBuiltinMetrics

/-- Python `dict.update` on the assoc-list model: existing keys keep their
position with the new value, new keys are appended in order. -/
def dictUpdate (base upd : List (String × String)) :
    List (String × String) :=
  base.map (fun p =>
    match upd.find? (fun q => q.1 == p.1) with
    | some q => (p.1, q.2)
    | none => p) ++
  upd.filter (fun q => !(base.any (fun p => p.1 == q.1)))

/-- `METRICS(framework).metrics` (lines 127-131): the framework container's
built-in dict updated with its user registry dict. -/
def metricsOf (f : Framework) : List (String × String) :=
  dictUpdate (builtinMetrics f) (registryMetricsInit.get f)

/-- Errors of the registry surface: a failed lookup carries the key list
that the assert message formats ("only support metrics in ..."), and a
duplicate registration is the `ValueError` of `metric_registry`. -/
inductive RegErr where
  | unknownMetric (registered : List String)
  | duplicateMetric
  deriving DecidableEq, Repr

/-- `METRICS.__getitem__` (lines 133-137): assert the name is a key —
with the full key enumeration in the failure message — then index. -/
def metricsGetItem (f : Framework) (name : String) : Except RegErr String :=
  match (metricsOf f).find? (fun p => p.1 == name) with
  | some p => Except.ok p.2
  | none => Except.error (RegErr.unknownMetric ((metricsOf f).map Prod.fst))

/-- `metric_registry` (lines 144-165): iterate the framework list; for
each framework, raise `ValueError` if the name is already registered
there, else add the (name, class) entry — so a raise in a later iteration
leaves earlier frameworks already mutated. Returns the registry state at
exit together with the raised error, if any. -/
def metricRegistryDecorator (metric_type cls : String) :
    List Framework → Registries → Registries × Option RegErr
  | [], regs => (regs, none)
  | f :: rest, regs =>
      if (regs.get f).any (fun p => p.1 == metric_type) then
        (regs, some RegErr.duplicateMetric)
      else
        metricRegistryDecorator metric_type cls rest
          (regs.set f (regs.get f ++ [(metric_type, cls)]))

end Ilit

/-- Decidable equality for `Except`, so claims can be evaluated on
concrete inputs. -/
instance exceptDecEq {ε α : Type} [DecidableEq ε] [DecidableEq α] :
    DecidableEq (Except ε α)
  | Except.ok x, Except.ok y =>
      if h : x = y then isTrue (congrArg Except.ok h)
      else isFalse (fun hh => h (Except.ok.inj hh))
  | Except.ok _, Except.error _ => isFalse (fun hh => Except.noConfusion hh)
  | Except.error _, Except.ok _ => isFalse (fun hh => Except.noConfusion hh)
  | Except.error x, Except.error y =>
      if h : x = y then isTrue (congrArg Except.error h)
      else isFalse (fun hh => h (Except.error.inj hh))

/-! ## Theorems -/

/-- C5: for a fixed approach, resolving any two backend API versions that fall
in the same version bracket (version < '1.7'; '1.7' ≤ version < '1.8';
version ≥ '1.8') returns identical (module-substitution table,
eligible-module whitelist) pairs. -/
theorem resolve_constant_on_bracket (v1 v2 approach : String)
    (h : Lpot.versionBracket v1 = Lpot.versionBracket v2) :
    Lpot.resolve v1 approach = Lpot.resolve v2 approach := by
  unfold Lpot.versionBracket at h
  unfold Lpot.resolve Lpot.resolveQMapping Lpot.resolveWhiteList
  split_ifs at h ⊢ <;> simp_all

/-- Witness for C5: '1.7.0' and '1.7.1' share bracket 1 and resolve to the
same pair. -/
theorem resolve_constant_on_bracket_witness :
    Lpot.versionBracket "1.7.0" = Lpot.versionBracket "1.7.1" ∧
    Lpot.resolve "1.7.0" "post_training_static_quant" =
      Lpot.resolve "1.7.1" "post_training_static_quant" :=
  ⟨by decide, resolve_constant_on_bracket "1.7.0" "1.7.1" _ (by decide)⟩

/-- C4 counterexample: for version '1.0.0', strictly below the oldest bracket
boundary '1.7', the resolver returns the legacy (table, whitelist) pair for
both approaches; the source has no failure branch (no
`UnsupportedVersionError`), refuting the claim that such versions fail. -/
theorem resolve_below_oldest_returns_pair :
    Lpot.resolve "1.0.0" "post_training_static_quant" =
      (Lpot.QMapping.defaultModuleMapping,
       Lpot.WhiteList.defaultQconfigPropagateWhiteList) ∧
    Lpot.resolve "1.0.0" "post_training_dynamic_quant" =
      (Lpot.QMapping.defaultDynamicModuleMapping,
       Lpot.WhiteList.defaultDynamicModuleMapping) := by
  constructor <;> decide

/-- C4 amended: every version strictly below the oldest bracket boundary
'1.7' resolves to the legacy-bracket pair (selected by approach); the
resolver never fails. -/
theorem resolve_below_oldest (v approach : String)
    (h : Lpot.pyLt v "1.7" = true) :
    Lpot.resolve v approach =
      (if approach = Lpot.dynamicApproach then
        (Lpot.QMapping.defaultDynamicModuleMapping,
         Lpot.WhiteList.defaultDynamicModuleMapping)
       else
        (Lpot.QMapping.defaultModuleMapping,
         Lpot.WhiteList.defaultQconfigPropagateWhiteList)) := by
  unfold Lpot.resolve Lpot.resolveQMapping Lpot.resolveWhiteList
  split_ifs <;> simp_all

/-- Witness for C4 amended: version '1.0.0' is below '1.7' and resolves to
the legacy static pair. -/
theorem resolve_below_oldest_witness :
    Lpot.pyLt "1.0.0" "1.7" = true ∧
    Lpot.resolve "1.0.0" "post_training_static_quant" =
      (Lpot.QMapping.defaultModuleMapping,
       Lpot.WhiteList.defaultQconfigPropagateWhiteList) :=
  ⟨by decide, by
    have h := resolve_below_oldest "1.0.0" "post_training_static_quant" (by decide)
    simpa [Lpot.dynamicApproach] using h⟩

/-- C1 counterexample: with `testBackend` at version '1.8', the fx
(graph-capture) path raises a weight-mismatch exception while loading
CalibratedWeights (`load_state_dict` is the last statement INSIDE the
`try` block), yet `load` returns the eager-path model (tag 60) after
logging the fx failure — the exception is absorbed and triggers fallback,
refuting the claim that it propagates to the caller. -/
theorem load_fx_weight_failure_falls_back :
    Lpot.fxPath Lpot.testBackend "1.8" "post_training_static_quant" () () 0 =
      Except.error (Lpot.LoadErr.weightMismatch "fc.weight") ∧
    (Lpot.load Lpot.testBackend "1.8" "post_training_static_quant" () ()
        ⟨true, 0⟩).result = Except.ok 60 ∧
    (Lpot.load Lpot.testBackend "1.8" "post_training_static_quant" () ()
        ⟨true, 0⟩).fxFailureLogged = true := by
  refine ⟨rfl, rfl, rfl⟩

/-- C1 amended: EVERY exception raised inside the graph-capture path —
including failures while loading CalibratedWeights — is caught, logged and
triggers fallback to the eager path; `load`'s outcome is then exactly the
eager path's outcome (whose own errors, weight mismatch included, do
propagate, since the eager weight load sits outside any `try`). -/
theorem load_fx_failure_falls_back {μ ω γ φ : Type}
    (B : Lpot.TorchBackend μ ω γ φ) (version approach : String)
    (opCfgs : γ) (weights : ω) (model : Lpot.TModel μ) (e : Lpot.LoadErr)
    (hv : Lpot.pyLt version "1.7" = false)
    (hfx : Lpot.fxPath B version approach opCfgs weights model.modules =
      Except.error e) :
    (Lpot.load B version approach opCfgs weights model).result =
      (Lpot.eagerPath B approach (Lpot.resolveQMapping version approach)
        (Lpot.resolveWhiteList version approach) opCfgs weights
        model.modules).1 ∧
    (Lpot.load B version approach opCfgs weights model).fxFailureLogged =
      true := by
  unfold Lpot.load Lpot.loadCore
  rw [hfx, hv]
  simp

/-- Witness for C1 amended: the concrete fx weight-mismatch failure of
`testBackend` satisfies the hypotheses, and `load` equals the eager
outcome there. -/
theorem load_fx_failure_falls_back_witness :
    (Lpot.pyLt "1.8" "1.7" = false ∧
     Lpot.fxPath Lpot.testBackend "1.8" "post_training_static_quant" () () 0 =
       Except.error (Lpot.LoadErr.weightMismatch "fc.weight")) ∧
    ((Lpot.load Lpot.testBackend "1.8" "post_training_static_quant" () ()
        ⟨true, 0⟩).result =
      (Lpot.eagerPath Lpot.testBackend "post_training_static_quant"
        (Lpot.resolveQMapping "1.8" "post_training_static_quant")
        (Lpot.resolveWhiteList "1.8" "post_training_static_quant") () ()
        0).1 ∧
     (Lpot.load Lpot.testBackend "1.8" "post_training_static_quant" () ()
        ⟨true, 0⟩).fxFailureLogged = true) :=
  ⟨⟨by decide, by decide⟩,
   load_fx_failure_falls_back Lpot.testBackend "1.8"
     "post_training_static_quant" () () ⟨true, 0⟩
     (Lpot.LoadErr.weightMismatch "fc.weight") (by decide) (by decide)⟩

/-- C2 counterexample: a model passed to `load` in training mode comes back
with `training = false` — `copy.deepcopy(model.eval())` calls `eval()` on
the ORIGINAL model before copying, mutating its train/eval flag in place,
refuting the claim that the original instance is never mutated. -/
theorem load_mutates_training_flag :
    (Lpot.load Lpot.testBackend "1.8" "post_training_static_quant" () ()
        ⟨true, 0⟩).originalAfter ≠ ({ training := true, modules := 0 } : Lpot.TModel Nat) ∧
    (Lpot.load Lpot.testBackend "1.8" "post_training_static_quant" () ()
        ⟨true, 0⟩).originalAfter.training = false := by
  refine ⟨by decide, rfl⟩

/-- C2 amended: `load` never mutates the original model's module/graph
structure (all structural mutation happens on private deep copies), but it
does set the original's training/evaluation flag to evaluation mode,
because `model.eval()` is applied to the original before deep-copying. -/
theorem load_preserves_modules_sets_eval {μ ω γ φ : Type}
    (B : Lpot.TorchBackend μ ω γ φ) (version approach : String)
    (opCfgs : γ) (weights : ω) (model : Lpot.TModel μ) :
    (Lpot.load B version approach opCfgs weights model).originalAfter.modules =
      model.modules ∧
    (Lpot.load B version approach opCfgs weights model).originalAfter.training =
      false :=
  ⟨rfl, rfl⟩

/-- C3 counterexample: for TopK with k = 2, predictions
[[0.1,0.2,0.7],[0.9,0.05,0.05]] and labels [2,1], a single update followed
by result() does NOT return 1.0: in sample 2 the scores at indices 1 and 2
tie at 0.05, the stable ascending argsort is [1,2,0], so
`argsort()[...,-2:]` keeps indices {2,0} and label 1 is not among them. -/
theorem topk_concrete_not_one :
    (Ilit.MxnetTopK.update ⟨2, 0, 0⟩
        (Ilit.PredsIn.twoD [[mkRat 1 10, mkRat 2 10, mkRat 7 10],
                            [mkRat 9 10, mkRat 1 20, mkRat 1 20]])
        (Ilit.LabelsIn.oneD [2, 1])).map Ilit.MxnetTopK.result ≠
      Except.ok ⟨false, 1⟩ := by
  have hupd : Ilit.MxnetTopK.update ⟨2, 0, 0⟩
      (Ilit.PredsIn.twoD [[mkRat 1 10, mkRat 2 10, mkRat 7 10],
                          [mkRat 9 10, mkRat 1 20, mkRat 1 20]])
      (Ilit.LabelsIn.oneD [2, 1]) = Except.ok ⟨2, 1, 2⟩ := by decide
  rw [hupd]
  simp only [Except.map, Ilit.MxnetTopK.result, Except.ok.injEq,
    Ilit.ResultOut.mk.injEq]
  norm_num

/-- C3 amended: the same single update followed by result() returns 0.5
(sample 1 correct; sample 2's top-2 index set under the code's argsort is
{0, 2}, which excludes label 1), with no zero-sample warning. -/
theorem topk_concrete_half :
    (Ilit.MxnetTopK.update ⟨2, 0, 0⟩
        (Ilit.PredsIn.twoD [[mkRat 1 10, mkRat 2 10, mkRat 7 10],
                            [mkRat 9 10, mkRat 1 20, mkRat 1 20]])
        (Ilit.LabelsIn.oneD [2, 1])).map Ilit.MxnetTopK.result =
      Except.ok ⟨false, 1/2⟩ := by
  have hupd : Ilit.MxnetTopK.update ⟨2, 0, 0⟩
      (Ilit.PredsIn.twoD [[mkRat 1 10, mkRat 2 10, mkRat 7 10],
                          [mkRat 9 10, mkRat 1 20, mkRat 1 20]])
      (Ilit.LabelsIn.oneD [2, 1]) = Except.ok ⟨2, 1, 2⟩ := by decide
  rw [hupd]
  simp only [Except.map, Ilit.MxnetTopK.result, Except.ok.injEq,
    Ilit.ResultOut.mk.injEq]
  norm_num

/-- C6: the mAP accumulator's update is idempotent under duplicate image
ids — a second update with the same image id, even with different
detection and ground-truth payloads, leaves the whole state (image ids,
ground-truth list, detection list, annotation counter) identical, and
hence result() identical for any evaluator. -/
theorem coco_update_idempotent {ι γ δ β κ : Type} [DecidableEq ι]
    (exportGT : ι → Nat → Ilit.GroundTruth β κ → List γ)
    (exportDet : ι → Ilit.Detection β κ → List δ)
    (s : Ilit.CocoState ι γ δ) (d1 d2 : Ilit.Detection β κ)
    (g1 g2 : Ilit.GroundTruth β κ) (i : ι) :
    Ilit.CocoMAP.update exportGT exportDet
        (Ilit.CocoMAP.update exportGT exportDet s d1 (g1, i)) d2 (g2, i) =
      Ilit.CocoMAP.update exportGT exportDet s d1 (g1, i) ∧
    ∀ ev : Ilit.CocoState ι γ δ → ℚ,
      Ilit.CocoMAP.result ev
          (Ilit.CocoMAP.update exportGT exportDet
            (Ilit.CocoMAP.update exportGT exportDet s d1 (g1, i)) d2 (g2, i)) =
        Ilit.CocoMAP.result ev
          (Ilit.CocoMAP.update exportGT exportDet s d1 (g1, i)) := by
  have key : Ilit.CocoMAP.update exportGT exportDet
      (Ilit.CocoMAP.update exportGT exportDet s d1 (g1, i)) d2 (g2, i) =
      Ilit.CocoMAP.update exportGT exportDet s d1 (g1, i) := by
    unfold Ilit.CocoMAP.update
    by_cases h : i ∈ s.image_ids
    · simp [h]
    · simp [h]
  exact ⟨key, fun ev => by rw [key]⟩

/-- C7: for both metric accumulators (TopK and mAP), reset() followed
immediately by result() returns the zero-sample default 0 with the
warning-level diagnostic, regardless of the prior accumulated state and of
the external COCO evaluator. -/
theorem reset_result_zero (s : Ilit.TopKState) {ι γ δ : Type}
    (c : Ilit.CocoState ι γ δ) (ev : Ilit.CocoState ι γ δ → ℚ) :
    Ilit.MxnetTopK.result (Ilit.MxnetTopK.reset s) = ⟨true, 0⟩ ∧
    Ilit.CocoMAP.result ev (Ilit.CocoMAP.reset c) = ⟨true, 0⟩ :=
  ⟨rfl, rfl⟩

/-- C8: whenever the label batch size differs from the prediction batch
size, TopK update fails with the shape-mismatch error — the assert in
`_topk_shape_validate` fires before any accumulator mutation, so the
caller's num_correct/num_sample state is untouched (no new state is
produced). -/
theorem topk_update_shape_mismatch (s : Ilit.TopKState)
    (preds : Ilit.PredsIn) (labels : Ilit.LabelsIn)
    (h : Ilit.labelsN labels ≠ Ilit.predsN preds) :
    Ilit.MxnetTopK.update s preds labels =
      Except.error Ilit.MetricErr.shapeMismatch := by
  simp [Ilit.MxnetTopK.update, Ilit.topkShapeValidate, if_pos h]

/-- Witness for C8: two prediction rows against one label. -/
theorem topk_update_shape_mismatch_witness :
    Ilit.labelsN (Ilit.LabelsIn.oneD [0]) ≠
      Ilit.predsN (Ilit.PredsIn.twoD [[1, 2], [3, 4]]) ∧
    Ilit.MxnetTopK.update ⟨1, 0, 0⟩ (Ilit.PredsIn.twoD [[1, 2], [3, 4]])
        (Ilit.LabelsIn.oneD [0]) =
      Except.error Ilit.MetricErr.shapeMismatch :=
  ⟨by decide,
   topk_update_shape_mismatch ⟨1, 0, 0⟩ (Ilit.PredsIn.twoD [[1, 2], [3, 4]])
     (Ilit.LabelsIn.oneD [0]) (by decide)⟩

/-- C9: looking up a metric name that is not registered for a framework
fails with the unknown-metric error whose message enumerates exactly the
currently registered names for that framework, and for each of the three
frameworks that enumeration is non-empty (at least one valid alternative
is listed). -/
theorem lookup_unknown_lists_alternatives (f : Ilit.Framework)
    (name : String) (h : name ∉ (Ilit.metricsOf f).map Prod.fst) :
    Ilit.metricsGetItem f name =
      Except.error
        (Ilit.RegErr.unknownMetric ((Ilit.metricsOf f).map Prod.fst)) ∧
    (Ilit.metricsOf f).map Prod.fst ≠ [] := by
  constructor
  · unfold Ilit.metricsGetItem
    have hnone : (Ilit.metricsOf f).find? (fun p => p.1 == name) = none := by
      rw [List.find?_eq_none]
      intro x hx hbeq
      exact h (List.mem_map.mpr ⟨x, hx, by simpa using hbeq⟩)
    rw [hnone]
  · cases f <;> decide

/-- Witness for C9: 'no_such_metric' is not registered for tensorflow and
its lookup fails with the (non-empty) key enumeration. -/
theorem lookup_unknown_lists_alternatives_witness :
    "no_such_metric" ∉
      (Ilit.metricsOf Ilit.Framework.tensorflow).map Prod.fst ∧
    (Ilit.metricsGetItem Ilit.Framework.tensorflow "no_such_metric" =
      Except.error
        (Ilit.RegErr.unknownMetric
          ((Ilit.metricsOf Ilit.Framework.tensorflow).map Prod.fst)) ∧
     (Ilit.metricsOf Ilit.Framework.tensorflow).map Prod.fst ≠ []) :=
  ⟨by decide,
   lookup_unknown_lists_alternatives Ilit.Framework.tensorflow
     "no_such_metric" (by decide)⟩

theorem registries_get_set_same (r : Ilit.Registries) (f : Ilit.Framework)
    (l : List (String × String)) : (r.set f l).get f = l := by
  cases f <;> rfl

theorem registries_get_set_ne (r : Ilit.Registries)
    (f g : Ilit.Framework) (l : List (String × String)) (h : f ≠ g) :
    (r.set f l).get g = r.get g := by
  cases f <;> cases g <;> first | rfl | exact absurd rfl h

/-- C10: registering a metric name for a list of frameworks is not atomic
on error — when the name is free in the first framework but already taken
in the second, the duplicate-name error is raised only after the entry has
been added to the first framework's registry, leaving it mutated despite
the failure. -/
theorem register_not_atomic (regs : Ilit.Registries) (name cls : String)
    (f1 f2 : Ilit.Framework)
    (h1 : (regs.get f1).any (fun p => p.1 == name) = false)
    (h2 : (regs.get f2).any (fun p => p.1 == name) = true)
    (hne : f1 ≠ f2) :
    (Ilit.metricRegistryDecorator name cls [f1, f2] regs).2 =
      some Ilit.RegErr.duplicateMetric ∧
    ((Ilit.metricRegistryDecorator name cls [f1, f2] regs).1.get f1).any
      (fun p => p.1 == name) = true := by
  have hset2 : ((regs.set f1 (regs.get f1 ++ [(name, cls)])).get f2) =
      regs.get f2 := registries_get_set_ne regs f1 f2 _ hne
  have hset1 : ((regs.set f1 (regs.get f1 ++ [(name, cls)])).get f1) =
      regs.get f1 ++ [(name, cls)] := registries_get_set_same regs f1 _
  simp [Ilit.metricRegistryDecorator, h1, hset2, h2, hset1]

/-- Witness for C10: in the post-import registry state, registering 'topk'
for [pytorch, mxnet] raises the duplicate error (mxnet already has 'topk')
after 'topk' has been added to the pytorch registry. -/
theorem register_not_atomic_witness :
    ((Ilit.registryMetricsInit.get Ilit.Framework.pytorch).any
        (fun p => p.1 == "topk") = false ∧
     (Ilit.registryMetricsInit.get Ilit.Framework.mxnet).any
        (fun p => p.1 == "topk") = true ∧
     Ilit.Framework.pytorch ≠ Ilit.Framework.mxnet) ∧
    ((Ilit.metricRegistryDecorator "topk" "UserTopK"
        [Ilit.Framework.pytorch, Ilit.Framework.mxnet]
        Ilit.registryMetricsInit).2 = some Ilit.RegErr.duplicateMetric ∧
     ((Ilit.metricRegistryDecorator "topk" "UserTopK"
        [Ilit.Framework.pytorch, Ilit.Framework.mxnet]
        Ilit.registryMetricsInit).1.get Ilit.Framework.pytorch).any
        (fun p => p.1 == "topk") = true) :=
  ⟨⟨by decide, by decide, by decide⟩,
   register_not_atomic Ilit.registryMetricsInit "topk" "UserTopK"
     Ilit.Framework.pytorch Ilit.Framework.mxnet (by decide) (by decide)
     (by decide)⟩
